import Mathlib

/-!
Verification of the iframe-sandbox core against its source.

The definitions below are shallow embeddings of:
- the sandbox Service Worker (src/src/sandbox/outer-sw.ts): network rules,
  the SET_NETWORK_RULES message handler, the fetch-handler decision logic,
  the content-length guard and the proxy-URL construction;
- the outer frame relay (src/src/sandbox/outer-frame.ts): the window
  message handler with its host/inner dispatch, execute queue and READY flush;
- the SafeSandbox custom element (heartbeat + reset variant): the
  window message handler, the reset guard and the heartbeat interval loop;
- the inner frame (src/src/sandbox/inner-frame.ts): the EXECUTE handler.
-/

namespace IframeSandbox

/-! ## Service worker: network rules (outer-sw.ts) -/

/-- JS `s.endsWith(suffix)` on code points (all inputs here are ASCII). -/
def jsEndsWith (s suffix : String) : Bool :=
  List.isSuffixOf suffix.data s.data

/-- JS `s.startsWith(pre)` on code points. -/
def jsStartsWith (s pre : String) : Bool :=
  List.isPrefixOf pre.data s.data

def removeFirstOccAux (pat : List Char) : List Char → List Char
  | [] => []
  | c :: rest =>
    if List.isPrefixOf pat (c :: rest) then (c :: rest).drop pat.length
    else c :: removeFirstOccAux pat rest

/-- JS `s.replace(pat, "")` with a string pattern: removes the first
occurrence of `pat` from `s` (used for `origin.replace("sandbox.", "")`). -/
def jsReplaceEmpty (s pat : String) : String :=
  String.mk (removeFirstOccAux pat.data s.data)

def hexDigitChar (n : Nat) : Char :=
  if n < 10 then Char.ofNat (48 + n) else Char.ofNat (55 + n)

def percentByte (b : Nat) : String :=
  String.mk [Char.ofNat 37, hexDigitChar (b / 16), hexDigitChar (b % 16)]

def utf8ByteList (c : Char) : List Nat :=
  let n := c.toNat
  if n < 128 then [n]
  else if n < 2048 then [192 + n / 64, 128 + n % 64]
  else if n < 65536 then [224 + n / 4096, 128 + (n / 64) % 64, 128 + n % 64]
  else [240 + n / 262144, 128 + (n / 4096) % 64, 128 + (n / 64) % 64, 128 + n % 64]

/-- The characters (besides ASCII letters and digits) that JS
`encodeURIComponent` leaves unescaped: - _ . ! ~ * ' ( ). -/
def uriUnreservedExtra : List Char :=
  ['-', '_', '.', '!', '~', '*', Char.ofNat 39, '(', ')']

def isUriUnreserved (c : Char) : Bool :=
  c.isAlpha || c.isDigit || uriUnreservedExtra.contains c

/-- JS `encodeURIComponent`: unreserved characters pass through, everything
else is percent-encoded byte-wise in UTF-8. -/
def encodeURIComponent (s : String) : String :=
  String.join (s.data.map (fun c =>
    if isUriUnreserved c then String.mk [c]
    else String.join ((utf8ByteList c).map percentByte)))

/-- `NetworkRules` as held by the service worker; every field is optional in
the TypeScript shape, and the use sites apply `??` fallbacks. -/
structure NetworkRules where
  allow : Option (List String)
  allowProtocols : Option (List String)
  allowMethods : Option (List String)
  maxContentLength : Option Nat
  proxyUrl : Option String
  files : Option (List (String × String))
  cacheStrategy : Option String
deriving DecidableEq

def defaultAllowProtocols : List String := ["http", "https"]

def defaultAllowMethods : List String :=
  ["GET", "POST", "PUT", "DELETE", "PATCH", "HEAD", "OPTIONS"]

/-- The initial `networkRules` value of the service worker (outer-sw.ts
lines 295-303). -/
def initialRules : NetworkRules :=
  { allow := some []
    allowProtocols := some defaultAllowProtocols
    allowMethods := some defaultAllowMethods
    maxContentLength := none
    proxyUrl := none
    files := some []
    cacheStrategy := some ("network-first") }

/-- A rules message whose fields are all absent (for stating what the
handler does with missing fields). -/
def emptyRulesMsg : NetworkRules :=
  { allow := none
    allowProtocols := none
    allowMethods := none
    maxContentLength := none
    proxyUrl := none
    files := none
    cacheStrategy := none }

/-- The `SET_NETWORK_RULES` branch of the service worker message handler
(outer-sw.ts lines 323-340): the state is rebuilt wholesale from the
message, with `??` defaults for missing fields; the previous rules value
`prev` is never read. -/
def applySetNetworkRules (prev : NetworkRules) (msg : NetworkRules) : NetworkRules :=
  { allow := some (msg.allow.getD [])
    allowProtocols := some (msg.allowProtocols.getD defaultAllowProtocols)
    allowMethods := some (msg.allowMethods.getD defaultAllowMethods)
    maxContentLength := msg.maxContentLength
    proxyUrl := msg.proxyUrl
    files := some (msg.files.getD [])
    cacheStrategy := some (msg.cacheStrategy.getD ("network-first")) }

/-! ## Service worker: fetch-handler decision (outer-sw.ts lines 364-623) -/

/-- An intercepted request, with the URL fields the handler reads
(`url.pathname`, `url.protocol` stripped of the colon, `url.hostname`,
`url.origin`, `event.request.url`, `event.request.method`). -/
structure InterceptedRequest where
  method : String
  protocol : String
  hostname : String
  path : String
  url : String
  origin : String
deriving DecidableEq

def lookupFile (files : List (String × String)) (path : String) : Option String :=
  (files.find? (fun kv => kv.fst == path)).map Prod.snd

/-- JS truthiness of `files[virtualPath]` (line 373): the key must exist
and its value must be a non-empty string. -/
def virtualHit (files : List (String × String)) (path : String) : Bool :=
  match lookupFile files path with
  | some content => content != ""
  | none => false

/-- Proxy target construction (outer-sw.ts lines 488-499): a proxy URL
starting with "/" gets the host origin (the worker origin with the first
"sandbox." occurrence removed) prepended, then "?url=" and the
percent-encoded request URL are appended. -/
def buildProxyUrl (proxyUrlVal selfOrigin requestUrl : String) : String :=
  let proxyBase :=
    if jsStartsWith proxyUrlVal ("/") then jsReplaceEmpty selfOrigin ("sandbox.") ++ proxyUrlVal
    else proxyUrlVal
  proxyBase ++ "?url=" ++ encodeURIComponent requestUrl

inductive BlockReason where
  | protocolNotAllowed
  | methodNotAllowed
  | domainNotAllowed
deriving DecidableEq

inductive Decision where
  | serveVirtual (content : String)
  | serveInnerFrameCsp
  | serveSameOrigin (strategy : String)
  | blocked (reason : BlockReason)
  | forwardProxy (target : String)
  | forwardDirect
deriving DecidableEq

/-- The HTTP status the decision resolves to before any upstream fetch:
virtual files are served as 200, the three policy blocks as 403; cache and
forward outcomes depend on the upstream response. -/
def Decision.statusCode : Decision → Option Nat
  | Decision.serveVirtual _ => some 200
  | Decision.blocked _ => some 403
  | _ => none

/-- The fetch-handler decision logic (outer-sw.ts lines 364-623), in source
order: virtual files, same-origin cache branch, protocol check, method
check, `allow.some(domain => hostname.endsWith(domain))`, then proxy or
direct forward, else the final 403 block. `if (networkRules.proxyUrl)` is
JS truthiness, so an empty proxy URL behaves like an unset one. -/
def decideRequest (rules : NetworkRules) (selfOrigin : String) (req : InterceptedRequest) : Decision :=
  let files := rules.files.getD []
  if virtualHit files req.path then
    Decision.serveVirtual ((lookupFile files req.path).getD (""))
  else if req.origin == selfOrigin then
    if jsEndsWith req.path ("/inner-frame.html") then Decision.serveInnerFrameCsp
    else Decision.serveSameOrigin (rules.cacheStrategy.getD ("network-first"))
  else if !((rules.allowProtocols.getD defaultAllowProtocols).contains req.protocol) then
    Decision.blocked BlockReason.protocolNotAllowed
  else if !((rules.allowMethods.getD defaultAllowMethods).contains req.method) then
    Decision.blocked BlockReason.methodNotAllowed
  else if (rules.allow.getD []).any (fun domain => jsEndsWith req.hostname domain) then
    if (rules.proxyUrl.getD ("")) != "" then
      Decision.forwardProxy (buildProxyUrl (rules.proxyUrl.getD ("")) selfOrigin req.url)
    else Decision.forwardDirect
  else
    Decision.blocked BlockReason.domainNotAllowed

/-! ## Service worker: content-length guard (outer-sw.ts lines 263-290) -/

structure UpstreamResponse where
  status : Nat
  contentLength : Option Nat
  body : String
deriving DecidableEq

structure SWResponse where
  status : Nat
  body : String
deriving DecidableEq

def sizeBlockBody (size maxLength : Nat) : String :=
  "\x7b\"error\":\"Blocked: Response too large (" ++ toString size ++
    " bytes > " ++ toString maxLength ++ " limit)\"\x7d"

/-- `checkContentLength` (outer-sw.ts lines 263-290). `if (!maxLength)
return null` fires for an unset limit and for a limit of 0 (JS falsiness);
a missing or empty content-length header skips the check. -/
def checkContentLength (maxLength : Option Nat) (res : UpstreamResponse) : Option SWResponse :=
  if maxLength.getD 0 == 0 then none
  else
    match res.contentLength with
    | some size =>
        if size > maxLength.getD 0 then
          some { status := 413, body := sizeBlockBody size (maxLength.getD 0) }
        else none
    | none => none

/-- Direct forward path (outer-sw.ts lines 557-576): fetch, size check,
release the body only when the check passes. -/
def directForwardResult (maxLength : Option Nat) (res : UpstreamResponse) : SWResponse :=
  match checkContentLength maxLength res with
  | some sizeBlock => sizeBlock
  | none => { status := res.status, body := res.body }

/-- Proxy forward path (outer-sw.ts lines 509-529): fetch the proxy target,
size check, then clone and release the body only when the check passes. -/
def proxyForwardResult (maxLength : Option Nat) (res : UpstreamResponse) : SWResponse :=
  match checkContentLength maxLength res with
  | some sizeBlock => sizeBlock
  | none => { status := res.status, body := res.body }

/-! ## Outer frame relay (outer-frame.ts lines 100-156) -/

inductive WinSource where
  | parent
  | innerFrame
  | otherWindow
deriving DecidableEq

/-- The message payloads the relay dispatches on. `readyMsg` is the bare
string "READY"; `resetCompleteMsg` is `{type:"RESET_COMPLETE"}`. -/
inductive WinData where
  | executeMsg (code : String)
  | setNetworkRulesMsg (rules : NetworkRules)
  | resetMsg
  | readyMsg
  | resetCompleteMsg
  | logMsg (payload : String)
  | otherMsg
deriving DecidableEq

structure OuterEvent where
  source : WinSource
  origin : String
  data : WinData
deriving DecidableEq

structure OuterState where
  innerFrameReady : Bool
  executionQueue : List WinData
  pendingRules : Option NetworkRules
deriving DecidableEq

def initialOuterState : OuterState :=
  { innerFrameReady := false, executionQueue := [], pendingRules := none }

/-- Messages posted by the handler: to the inner frame, to the parent
window, and the rules forwarded to the service worker. -/
structure OuterEffects where
  toInner : List WinData
  toParent : List WinData
  toServiceWorker : List NetworkRules
deriving DecidableEq

def noEffects : OuterEffects :=
  { toInner := [], toParent := [], toServiceWorker := [] }

/-- The outer-frame window message handler (outer-frame.ts lines 104-156).
Branch A fires when `event.source === window.parent` OR the origin matches
`HOST_ORIGIN` and the source is not the inner frame; branch B fires on
source identity alone (`event.source === innerFrame.contentWindow`),
with no origin comparison. -/
def outerHandle (hostOrigin : String) (s : OuterState) (ev : OuterEvent) : OuterState × OuterEffects :=
  let isHost := ev.source == WinSource.parent
  let isInner := ev.source == WinSource.innerFrame
  let originMatch := ev.origin == hostOrigin
  if isHost || (originMatch && !isInner) then
    match ev.data with
    | WinData.executeMsg code =>
        if s.innerFrameReady then
          (s, { noEffects with toInner := [WinData.executeMsg code] })
        else
          ({ s with executionQueue := s.executionQueue ++ [WinData.executeMsg code] }, noEffects)
    | WinData.setNetworkRulesMsg rules =>
        ({ s with pendingRules := some rules },
         { noEffects with toServiceWorker := [rules] })
    | WinData.resetMsg =>
        (s, { noEffects with toParent := [WinData.resetCompleteMsg] })
    | _ => (s, noEffects)
  else if isInner then
    match ev.data with
    | WinData.readyMsg =>
        ({ s with innerFrameReady := true, executionQueue := [] },
         { noEffects with toInner := s.executionQueue, toParent := [WinData.readyMsg] })
    | WinData.logMsg p => (s, { noEffects with toParent := [WinData.logMsg p] })
    | _ => (s, noEffects)
  else (s, noEffects)

/-- Run the handler over a sequence of events, collecting the messages
posted to the inner frame in order. -/
def outerRun (hostOrigin : String) (s : OuterState) : List OuterEvent → OuterState × List WinData
  | [] => (s, [])
  | ev :: rest =>
      let step := outerHandle hostOrigin s ev
      let tail := outerRun hostOrigin step.1 rest
      (tail.1, step.2.toInner ++ tail.2)

def isExecuteData : WinData → Bool
  | WinData.executeMsg _ => true
  | _ => false

/-- Whether the relay routes an event into its host branch. -/
def acceptedAsHost (hostOrigin : String) (ev : OuterEvent) : Bool :=
  ev.source == WinSource.parent ||
    (ev.origin == hostOrigin && ev.source != WinSource.innerFrame)

/-- The EXECUTE payloads the host issued through the relay, in order. -/
def issuedExecutes (hostOrigin : String) (evs : List OuterEvent) : List WinData :=
  (evs.filter (fun ev => acceptedAsHost hostOrigin ev && isExecuteData ev.data)).map
    (fun ev => ev.data)

/-! ## SafeSandbox supervisor (heartbeat + reset variant) -/

inductive HostAction where
  | dispatchReady
  | sendNetworkRules
  | startHeartbeatAction
  | dispatchLog (payload : String)
  | dispatchMessage
deriving DecidableEq

structure HostEvent where
  origin : String
  data : WinData
deriving DecidableEq

/-- `SafeSandbox._onMessage` (supervisor window message handler): drops
everything when no sandbox origin is set or the event origin differs from
it; otherwise dispatches on the payload. -/
def sandboxOnMessage (sandboxOrigin : String) (ev : HostEvent) : List HostAction :=
  if sandboxOrigin == "" then []
  else if ev.origin != sandboxOrigin then []
  else
    match ev.data with
    | WinData.readyMsg =>
        [HostAction.dispatchReady, HostAction.sendNetworkRules, HostAction.startHeartbeatAction]
    | WinData.logMsg p => [HostAction.dispatchLog p]
    | _ => [HostAction.dispatchMessage]

/-- `SafeSandbox.reset` state: the in-progress flag, how many
teardown-and-rebuild cycles have run, and whether the heartbeat interval
is armed. -/
structure ResetState where
  isResetting : Bool
  teardownCount : Nat
  heartbeatRunning : Bool
deriving DecidableEq

/-- The synchronous body of `SafeSandbox.reset`: an early return when the
in-progress flag is set; otherwise set the flag, stop the heartbeat, and
remove and recreate the iframe (one teardown-rebuild cycle). -/
def resetCall (s : ResetState) : ResetState :=
  if s.isResetting then s
  else { isResetting := true, teardownCount := s.teardownCount + 1, heartbeatRunning := false }

/-- The deferred `setTimeout` callback at the end of `reset`: clears the
in-progress flag (and reloads the iframe source). -/
def resetTimeoutFire (s : ResetState) : ResetState :=
  { s with isResetting := false }

/-- Heartbeat loop state: `pendingPing` is the closure-local flag,
`heartbeatFailures` the missed counter, `resetCount` how many times
`reset()` has fired, `intervalActive` whether the interval (and channel)
is still alive. -/
structure HeartbeatState where
  pendingPing : Bool
  heartbeatFailures : Nat
  resetCount : Nat
  intervalActive : Bool
deriving DecidableEq

/-- State right after `_startHeartbeat` arms the loop. -/
def heartbeatStart : HeartbeatState :=
  { pendingPing := false, heartbeatFailures := 0, resetCount := 0, intervalActive := true }

/-- A PONG arriving on port1: clears the pending flag and the failure
counter (no effect once the channel is torn down). -/
def receivePong (s : HeartbeatState) : HeartbeatState :=
  if s.intervalActive then { s with pendingPing := false, heartbeatFailures := 0 }
  else s

/-- One interval tick: if the previous ping is unanswered, increment the
failure counter and call `reset()` (which stops the interval) once the
counter reaches 5; otherwise (and after a survived miss) mark a new ping
pending. -/
def heartbeatTick (s : HeartbeatState) : HeartbeatState :=
  if !s.intervalActive then s
  else if s.pendingPing then
    let failures := s.heartbeatFailures + 1
    if failures ≥ 5 then
      { s with heartbeatFailures := failures, resetCount := s.resetCount + 1,
               intervalActive := false }
    else { s with heartbeatFailures := failures, pendingPing := true }
  else { s with pendingPing := true }

/-- A tick whose ping was answered in time: the PONG lands before the
interval callback runs. -/
def tickAnswered (s : HeartbeatState) : HeartbeatState :=
  heartbeatTick (receivePong s)

def iterTick (f : HeartbeatState → HeartbeatState) : Nat → HeartbeatState → HeartbeatState
  | 0, s => s
  | n + 1, s => f (iterTick f n s)

/-! ## Inner frame (inner-frame.ts lines 82-92) -/

structure InnerEvent where
  origin : String
  source : WinSource
  data : WinData
deriving DecidableEq

/-- The inner-frame window message handler: evaluates `event.data.code`
whenever `event.data.type === "EXECUTE"`; it reads nothing else from the
event (no origin, no source check). Returns the code evaluated, if any. -/
def innerHandle (ev : InnerEvent) : Option String :=
  match ev.data with
  | WinData.executeMsg code => some code
  | _ => none

/-! ## Concrete fixtures used to evaluate the model -/

def sandboxSelfOrigin : String := "http://sandbox.localhost:3333"

def hostOriginFx : String := "http://localhost:3333"

def allowExampleRules : NetworkRules :=
  { initialRules with allow := some ["example.com"] }

/-- A cross-origin request whose hostname merely ends with the allow entry
"example.com" without a subdomain boundary. -/
def evilHostReq : InterceptedRequest :=
  { method := "GET", protocol := "https", hostname := "evilexample.com",
    path := "/x", url := "https://evilexample.com/x",
    origin := "https://evilexample.com" }

/-- A cross-origin request whose hostname matches no allow entry at all. -/
def strangerReq : InterceptedRequest :=
  { method := "GET", protocol := "https", hostname := "other.test",
    path := "/y", url := "https://other.test/y",
    origin := "https://other.test" }

def emptyFileRules : NetworkRules :=
  { initialRules with files := some [("/a", "")] }

def emptyFileReq : InterceptedRequest :=
  { method := "GET", protocol := "https", hostname := "nowhere.test",
    path := "/a", url := "https://nowhere.test/a",
    origin := "https://nowhere.test" }

def virtualFileRules : NetworkRules :=
  { initialRules with files := some [("/app.js", "console.log(1)")] }

/-- A request for a virtual path with an exotic method and protocol, from a
host not on the allow list. -/
def virtualFileReq : InterceptedRequest :=
  { method := "TRACE", protocol := "ftp", hostname := "nowhere.test",
    path := "/app.js", url := "ftp://nowhere.test/app.js",
    origin := "ftp://nowhere.test" }

def relativeProxyRules : NetworkRules :=
  { initialRules with allow := some ["example.com"], proxyUrl := some ("/proxy") }

def absoluteProxyRules : NetworkRules :=
  { initialRules with allow := some ["example.com"],
                      proxyUrl := some ("https://proxy.test/fetch") }

def apiExampleReq : InterceptedRequest :=
  { method := "GET", protocol := "https", hostname := "api.example.com",
    path := "/", url := "https://api.example.com/",
    origin := "https://api.example.com" }

/-- EXECUTE "a", EXECUTE "b" from the host before readiness, then READY
from the inner frame. -/
def abReadyEvents : List OuterEvent :=
  [ { source := WinSource.parent, origin := hostOriginFx,
      data := WinData.executeMsg ("a") },
    { source := WinSource.parent, origin := hostOriginFx,
      data := WinData.executeMsg ("b") },
    { source := WinSource.innerFrame, origin := sandboxSelfOrigin,
      data := WinData.readyMsg } ]

/-- An EXECUTE sent by the parent window under a mismatched declared
origin. -/
def spoofedParentEvent : OuterEvent :=
  { source := WinSource.parent, origin := "https://evil.example",
    data := WinData.executeMsg ("x") }

def freshResetState : ResetState :=
  { isResetting := false, teardownCount := 0, heartbeatRunning := true }

/-! ## Relay ordering invariant and helper lemmas -/

/-- Once the inner frame is ready, the execution queue is empty. -/
def QueueInv (s : OuterState) : Prop :=
  s.innerFrameReady = true → s.executionQueue = []

theorem outerHandle_step (h : String) (s : OuterState) (ev : OuterEvent)
    (hs : QueueInv s) :
    QueueInv (outerHandle h s ev).1 ∧
      (outerHandle h s ev).2.toInner ++ (outerHandle h s ev).1.executionQueue =
        s.executionQueue ++
          (if acceptedAsHost h ev && isExecuteData ev.data then [ev.data] else []) := by
  unfold QueueInv at hs ⊢
  unfold outerHandle acceptedAsHost isExecuteData noEffects
  rcases ev with ⟨src, origin, data⟩
  rcases s with ⟨ready, queue, pending⟩
  simp only at hs ⊢
  cases src <;> cases data <;> cases ready <;>
    by_cases ho : (origin == h) = true <;>
    simp_all

theorem issuedExecutes_cons (h : String) (ev : OuterEvent) (rest : List OuterEvent) :
    issuedExecutes h (ev :: rest) =
      (if acceptedAsHost h ev && isExecuteData ev.data then [ev.data] else []) ++
        issuedExecutes h rest := by
  unfold issuedExecutes
  cases hc : acceptedAsHost h ev && isExecuteData ev.data <;>
    simp [List.filter_cons, hc]

theorem outerRun_out (h : String) (evs : List OuterEvent) :
    ∀ s : OuterState, QueueInv s →
      (outerRun h s evs).2 ++ (outerRun h s evs).1.executionQueue =
          s.executionQueue ++ issuedExecutes h evs ∧
        QueueInv (outerRun h s evs).1 := by
  induction evs with
  | nil =>
      intro s hs
      exact ⟨by simp [outerRun, issuedExecutes], hs⟩
  | cons ev rest ih =>
      intro s hs
      obtain ⟨hinv1, hout1⟩ := outerHandle_step h s ev hs
      obtain ⟨ihEq, ihInv⟩ := ih (outerHandle h s ev).1 hinv1
      constructor
      · show (outerHandle h s ev).2.toInner ++ (outerRun h (outerHandle h s ev).1 rest).2 ++
            (outerRun h (outerHandle h s ev).1 rest).1.executionQueue =
          s.executionQueue ++ issuedExecutes h (ev :: rest)
        rw [List.append_assoc, ihEq, ← List.append_assoc,
          hout1, issuedExecutes_cons, List.append_assoc]
      · exact ihInv

/-! ## Heartbeat trace characterizations -/

theorem iter_tickAnswered (n : Nat) :
    iterTick tickAnswered n heartbeatStart =
      if n = 0 then heartbeatStart
      else { pendingPing := true, heartbeatFailures := 0, resetCount := 0,
             intervalActive := true } := by
  induction n with
  | zero => rfl
  | succ k ih =>
      show tickAnswered (iterTick tickAnswered k heartbeatStart) = _
      rw [ih]
      by_cases hk : k = 0
      · simp [hk]
        decide
      · rw [if_neg hk, if_neg (Nat.succ_ne_zero k)]
        decide

theorem iter_heartbeatTick (n : Nat) :
    iterTick heartbeatTick n heartbeatStart =
      if n = 0 then heartbeatStart
      else if n ≤ 5 then
        { pendingPing := true, heartbeatFailures := n - 1, resetCount := 0,
          intervalActive := true }
      else
        { pendingPing := true, heartbeatFailures := 5, resetCount := 1,
          intervalActive := false } := by
  induction n with
  | zero => rfl
  | succ k ih =>
      show heartbeatTick (iterTick heartbeatTick k heartbeatStart) = _
      rw [ih]
      rcases Nat.lt_or_ge k 6 with hk | hk
      · interval_cases k <;> decide
      · rw [if_neg (by omega : ¬ k = 0), if_neg (by omega : ¬ k ≤ 5),
          if_neg (by omega : ¬ k + 1 = 0), if_neg (by omega : ¬ k + 1 ≤ 5)]
        rfl

/-! ## Claims -/

/-- C1 counterexample: under the policy `allow = ["example.com"]`, the
request for `https://evilexample.com/x` has a hostname that is neither
equal to "example.com" nor a subdomain of it (no "." boundary), and its
path is not a key of the virtual files, yet the decision is a direct
forward, not a 403 block — the claim as stated is false. -/
theorem c1_counterexample :
    ("evilexample.com" ≠ "example.com") ∧
    jsEndsWith ("evilexample.com") (".example.com") = false ∧
    lookupFile (allowExampleRules.files.getD []) ("/x") = none ∧
    decideRequest allowExampleRules sandboxSelfOrigin evilHostReq =
      Decision.forwardDirect ∧
    Decision.statusCode (decideRequest allowExampleRules sandboxSelfOrigin evilHostReq) ≠
      some 403 := by
  decide

/-- C1 amended: for every cross-origin request whose hostname does not end
with (plain string suffix, as `hostname.endsWith(domain)` checks) any
entry of the allow list, and whose path is not a key of the virtual files,
the decision is a Block with status 403. -/
theorem c1_amended (rules : NetworkRules) (selfOrigin : String)
    (req : InterceptedRequest)
    (hOrigin : req.origin ≠ selfOrigin)
    (hAllow : ∀ d ∈ rules.allow.getD [], jsEndsWith req.hostname d = false)
    (hFiles : lookupFile (rules.files.getD []) req.path = none) :
    Decision.statusCode (decideRequest rules selfOrigin req) = some 403 := by
  have hv : virtualHit (rules.files.getD []) req.path = false := by
    unfold virtualHit
    rw [hFiles]
  have hbeq : (req.origin == selfOrigin) = false := beq_eq_false_iff_ne.mpr hOrigin
  have hany : ((rules.allow.getD []).any fun d => jsEndsWith req.hostname d) = false := by
    rw [List.any_eq_false]
    intro d hd
    simp [hAllow d hd]
  unfold decideRequest
  simp only [hv, hbeq, hany, Bool.false_eq_true, if_false]
  split_ifs <;> rfl

/-- C1 witness: at the concrete policy `allow = ["example.com"]` and the
cross-origin request for `https://other.test/y`, the amended theorem
applies and the decision carries status 403. -/
theorem c1_witness :
    Decision.statusCode (decideRequest allowExampleRules sandboxSelfOrigin strangerReq) =
      some 403 :=
  c1_amended allowExampleRules sandboxSelfOrigin strangerReq
    (by decide) (by decide) (by decide)

/-- C2 counterexample: an EXECUTE posted by the parent window under the
declared origin "https://evil.example" (which differs from the expected
host origin) is not dropped: the relay appends it to the execution queue,
changing relay state — the claim as stated is false. -/
theorem c2_counterexample :
    spoofedParentEvent.origin ≠ hostOriginFx ∧
    (outerHandle hostOriginFx initialOuterState spoofedParentEvent).1.executionQueue =
      [WinData.executeMsg ("x")] ∧
    (outerHandle hostOriginFx initialOuterState spoofedParentEvent).1 ≠
      initialOuterState := by
  decide

/-- C2 amended: the silent origin-mismatch drop holds only for windows
that are neither the parent nor the inner frame: such a message leaves the
relay state unchanged and produces no outbound message; the relay
dispatches messages from the parent and inner-frame windows on source
identity regardless of declared origin. The supervisor-level handler
(SafeSandbox._onMessage) does drop every message whose declared origin
differs from the sandbox origin, dispatching nothing. -/
theorem c2_amended :
    (∀ (h : String) (s : OuterState) (ev : OuterEvent),
        ev.source = WinSource.otherWindow → ev.origin ≠ h →
        outerHandle h s ev = (s, noEffects)) ∧
    (∀ (o : String) (ev : HostEvent), ev.origin ≠ o →
        sandboxOnMessage o ev = []) := by
  constructor
  · intro h s ev hsrc horigin
    have hbeq : (ev.origin == h) = false := beq_eq_false_iff_ne.mpr horigin
    unfold outerHandle
    rcases ev with ⟨src, origin, data⟩
    subst hsrc
    simp_all
  · intro o ev horigin
    have hbeq : (ev.origin != o) = true := bne_iff_ne.mpr horigin
    unfold sandboxOnMessage
    by_cases ho : (o == "") = true
    · simp [ho]
    · simp [ho, hbeq]

/-- C2 witness: at concrete inputs, an origin-mismatched message from a
third window is dropped by the relay with no state change and no effects,
and an origin-mismatched READY is dropped by the supervisor handler. -/
theorem c2_witness :
    outerHandle hostOriginFx initialOuterState
        { source := WinSource.otherWindow, origin := "https://evil.example",
          data := WinData.executeMsg ("x") } =
      (initialOuterState, noEffects) ∧
    sandboxOnMessage sandboxSelfOrigin
        { origin := "https://evil.example", data := WinData.readyMsg } = [] :=
  ⟨c2_amended.1 hostOriginFx initialOuterState
      { source := WinSource.otherWindow, origin := "https://evil.example",
        data := WinData.executeMsg ("x") } rfl (by decide),
   c2_amended.2 sandboxSelfOrigin
      { origin := "https://evil.example", data := WinData.readyMsg } (by decide)⟩

/-- C3 counterexample: with `files = {"/a": ""}` the path "/a" is present
in the virtual files, but the stored content is the empty string, which is
falsy in `if (files[virtualPath])`; the request falls through all the way
to the domain block instead of being served — the claim as stated is
false. -/
theorem c3_counterexample :
    lookupFile (emptyFileRules.files.getD []) ("/a") = some ("") ∧
    decideRequest emptyFileRules sandboxSelfOrigin emptyFileReq =
      Decision.blocked BlockReason.domainNotAllowed ∧
    decideRequest emptyFileRules sandboxSelfOrigin emptyFileReq ≠
      Decision.serveVirtual ("") := by
  decide

/-- C3 amended: for every virtual path mapped to a non-empty content
string, the decision is ServeVirtual of that content (a 200 with the
stored content), for every method, protocol, hostname and origin — the
virtual-file branch precedes the same-origin cache branch and all policy
checks. -/
theorem c3_amended (rules : NetworkRules) (selfOrigin : String)
    (req : InterceptedRequest) (content : String)
    (hFile : lookupFile (rules.files.getD []) req.path = some content)
    (hne : content ≠ "") :
    decideRequest rules selfOrigin req = Decision.serveVirtual content ∧
    Decision.statusCode (decideRequest rules selfOrigin req) = some 200 := by
  have hv : virtualHit (rules.files.getD []) req.path = true := by
    unfold virtualHit
    rw [hFile]
    exact bne_iff_ne.mpr hne
  have hd : decideRequest rules selfOrigin req = Decision.serveVirtual content := by
    unfold decideRequest
    simp only [hv, if_true, hFile, Option.getD_some]
  exact ⟨hd, by rw [hd]; rfl⟩

/-- C3 witness: the virtual file "/app.js" is served with its stored
content even for a TRACE request over ftp from a hostname that matches no
allow entry. -/
theorem c3_witness :
    decideRequest virtualFileRules sandboxSelfOrigin virtualFileReq =
      Decision.serveVirtual ("console.log(1)") ∧
    Decision.statusCode (decideRequest virtualFileRules sandboxSelfOrigin virtualFileReq) =
      some 200 :=
  c3_amended virtualFileRules sandboxSelfOrigin virtualFileReq ("console.log(1)")
    (by decide) (by decide)

/-- C4 counterexample: with `maxContentLength = 0` configured and a
response declaring content-length 5 (strictly greater than 0), the guard
`if (!maxLength) return null` treats the 0 limit as unset: the response is
released unchanged with its original body, not replaced by a 413 block —
the claim as stated is false. -/
theorem c4_counterexample :
    (5 > 0) ∧
    directForwardResult (some 0)
        { status := 200, contentLength := some 5, body := "secret-body" } =
      { status := 200, body := "secret-body" } ∧
    (directForwardResult (some 0)
        { status := 200, contentLength := some 5, body := "secret-body" }).status ≠
      413 := by
  decide

/-- C4 amended: for every positive configured maxContentLength and every
upstream response declaring a content-length strictly greater than it,
both the direct-forward path and the proxy path return a 413 block, and
the returned response is independent of the upstream body — the original
body is never observable by the caller. -/
theorem c4_amended (m size status : Nat) (b1 b2 : String)
    (hm : 0 < m) (hgt : size > m) :
    (directForwardResult (some m)
        { status := status, contentLength := some size, body := b1 }).status = 413 ∧
    directForwardResult (some m)
        { status := status, contentLength := some size, body := b1 } =
      directForwardResult (some m)
        { status := status, contentLength := some size, body := b2 } ∧
    (proxyForwardResult (some m)
        { status := status, contentLength := some size, body := b1 }).status = 413 ∧
    proxyForwardResult (some m)
        { status := status, contentLength := some size, body := b1 } =
      proxyForwardResult (some m)
        { status := status, contentLength := some size, body := b2 } := by
  have hm0 : (m == 0) = false := beq_eq_false_iff_ne.mpr (Nat.pos_iff_ne_zero.mp hm)
  unfold directForwardResult proxyForwardResult checkContentLength
  simp [hm0, hgt]

/-- C4 witness: with limit 4 and declared length 5, both paths return 413
and the same response for two different upstream bodies. -/
theorem c4_witness :
    (directForwardResult (some 4)
        { status := 200, contentLength := some 5, body := "AAAAA" }).status = 413 ∧
    directForwardResult (some 4)
        { status := 200, contentLength := some 5, body := "AAAAA" } =
      directForwardResult (some 4)
        { status := 200, contentLength := some 5, body := "BBBBB" } ∧
    (proxyForwardResult (some 4)
        { status := 200, contentLength := some 5, body := "AAAAA" }).status = 413 ∧
    proxyForwardResult (some 4)
        { status := 200, contentLength := some 5, body := "AAAAA" } =
      proxyForwardResult (some 4)
        { status := 200, contentLength := some 5, body := "BBBBB" } :=
  c4_amended 4 5 200 ("AAAAA") ("BBBBB") (by decide) (by decide)

/-- C5: heartbeat liveness and threshold. With a pong answered before
every tick, the missed-failure counter and the reset count stay 0 at every
tick. With pongs withheld, the counter after n ticks is min (n-1) 5 — in
particular strictly below 5 before the sixth tick and exactly 5 at it —
and `reset()` has fired exactly once for every n past that tick and never
before: it fires exactly at the tick where the counter reaches the
threshold 5. -/
theorem c5_heartbeat (n : Nat) :
    ((iterTick tickAnswered n heartbeatStart).heartbeatFailures = 0 ∧
     (iterTick tickAnswered n heartbeatStart).resetCount = 0) ∧
    ((iterTick heartbeatTick n heartbeatStart).resetCount =
        if 6 ≤ n then 1 else 0) ∧
    ((iterTick heartbeatTick n heartbeatStart).heartbeatFailures = min (n - 1) 5) ∧
    ((iterTick heartbeatTick 6 heartbeatStart).heartbeatFailures = 5) := by
  refine ⟨?_, ?_, ?_, by decide⟩
  · rw [iter_tickAnswered]
    split_ifs <;> exact ⟨rfl, rfl⟩
  · rw [iter_heartbeatTick]
    rcases Nat.eq_zero_or_pos n with h0 | h0
    · subst h0
      decide
    · rcases Nat.lt_or_ge n 6 with h6 | h6
      · rw [if_neg (by omega : ¬ n = 0), if_pos (by omega : n ≤ 5),
          if_neg (by omega : ¬ 6 ≤ n)]
      · rw [if_neg (by omega : ¬ n = 0), if_neg (by omega : ¬ n ≤ 5), if_pos h6]
  · rw [iter_heartbeatTick]
    rcases Nat.eq_zero_or_pos n with h0 | h0
    · subst h0
      decide
    · rcases Nat.lt_or_ge n 6 with h6 | h6
      · rw [if_neg (by omega : ¬ n = 0), if_pos (by omega : n ≤ 5)]
        show n - 1 = min (n - 1) 5
        omega
      · rw [if_neg (by omega : ¬ n = 0), if_neg (by omega : ¬ n ≤ 5)]
        show 5 = min (n - 1) 5
        omega

/-- C6: EXECUTE ordering across the ready boundary. For every event
sequence, once the relay has reached the ready state, the messages posted
to the inner context are exactly the EXECUTE commands the host issued, in
issue order, with no reordering and no duplication — including commands
queued before READY and flushed by it. -/
theorem c6_execute_order (h : String) (evs : List OuterEvent)
    (hready : (outerRun h initialOuterState evs).1.innerFrameReady = true) :
    (outerRun h initialOuterState evs).2 = issuedExecutes h evs := by
  have hinv : QueueInv initialOuterState := by
    intro hcontra
    rfl
  obtain ⟨heq, hfin⟩ := outerRun_out h evs initialOuterState hinv
  have hq : (outerRun h initialOuterState evs).1.executionQueue = [] := hfin hready
  rw [hq, List.append_nil] at heq
  simpa using heq

/-- C6 witness: for execute "a", execute "b" issued before readiness and a
READY from the inner frame, the inner context receives exactly ["a", "b"]
in order. -/
theorem c6_witness :
    (outerRun hostOriginFx initialOuterState abReadyEvents).2 =
      [WinData.executeMsg ("a"), WinData.executeMsg ("b")] := by
  have h := c6_execute_order hostOriginFx abReadyEvents (by decide)
  rw [h]
  decide

/-- C7 counterexample: with `proxyUrl = "/proxy"` (a value starting with
"/"), the worker prepends the host origin — the worker origin with the
first "sandbox." occurrence removed — so the fetched URL is
"http://localhost:3333/proxy?url=..." and not
`proxyUrl + "?url=" + percentEncode(R.url)`; the claim's "for every value
of proxyUrl" is false. -/
theorem c7_counterexample :
    decideRequest relativeProxyRules sandboxSelfOrigin apiExampleReq =
      Decision.forwardProxy
        ("http://localhost:3333/proxy?url=https%3A%2F%2Fapi.example.com%2F") ∧
    ("http://localhost:3333/proxy?url=https%3A%2F%2Fapi.example.com%2F" ≠
      "/proxy" ++ "?url=" ++ encodeURIComponent ("https://api.example.com/")) := by
  decide

/-- C7 amended: for every allowed request under a policy whose proxyUrl is
set, non-empty, and does not start with "/", the fetched URL equals
`proxyUrl + "?url=" + percentEncode(R.url)` exactly; a proxyUrl starting
with "/" instead gets the host origin (worker origin minus the first
"sandbox.") prepended, and an empty proxyUrl is treated as unset. -/
theorem c7_amended (rules : NetworkRules) (selfOrigin : String)
    (req : InterceptedRequest) (p : String)
    (hp : rules.proxyUrl = some p) (hpne : p ≠ "")
    (hrel : jsStartsWith p ("/") = false)
    (hv : virtualHit (rules.files.getD []) req.path = false)
    (hOrigin : req.origin ≠ selfOrigin)
    (hproto : (rules.allowProtocols.getD defaultAllowProtocols).contains req.protocol = true)
    (hmeth : (rules.allowMethods.getD defaultAllowMethods).contains req.method = true)
    (hallow : ((rules.allow.getD []).any fun d => jsEndsWith req.hostname d) = true) :
    decideRequest rules selfOrigin req =
      Decision.forwardProxy (p ++ "?url=" ++ encodeURIComponent req.url) := by
  have hbeq : (req.origin == selfOrigin) = false := beq_eq_false_iff_ne.mpr hOrigin
  have hpb : (p != "") = true := bne_iff_ne.mpr hpne
  unfold decideRequest
  simp only [hv, hbeq, hproto, hmeth, hallow, hp, Option.getD_some, hpb,
    Bool.false_eq_true, Bool.not_true, Bool.not_false, if_false, if_true]
  unfold buildProxyUrl
  rw [hrel]
  simp

/-- C7 witness: with the absolute proxy URL "https://proxy.test/fetch" and
the allowed request for "https://api.example.com/", the fetched URL is
exactly the proxy URL plus "?url=" plus the percent-encoded request
URL. -/
theorem c7_witness :
    decideRequest absoluteProxyRules sandboxSelfOrigin apiExampleReq =
      Decision.forwardProxy
        ("https://proxy.test/fetch" ++ "?url=" ++
          encodeURIComponent ("https://api.example.com/")) :=
  c7_amended absoluteProxyRules sandboxSelfOrigin apiExampleReq
    ("https://proxy.test/fetch") (by decide) (by decide) (by decide) (by decide)
    (by decide) (by decide) (by decide) (by decide)

/-- C8: reset() is idempotent under the in-progress guard: a second call
arriving while the flag is still set is a no-op, so two calls in immediate
succession perform exactly one teardown-and-rebuild cycle. -/
theorem c8_reset_idempotent (s : ResetState) :
    resetCall (resetCall s) = resetCall s ∧
    (s.isResetting = false →
      (resetCall (resetCall s)).teardownCount = s.teardownCount + 1) := by
  by_cases hr : s.isResetting = true <;>
    simp [resetCall, hr]

/-- C8 witness: from a fresh state, two immediate reset() calls yield the
same state as one, with exactly one teardown counted. -/
theorem c8_witness :
    resetCall (resetCall freshResetState) = resetCall freshResetState ∧
    (resetCall (resetCall freshResetState)).teardownCount = 1 :=
  ⟨(c8_reset_idempotent freshResetState).1,
   (c8_reset_idempotent freshResetState).2 rfl⟩

/-- C9: SET_NETWORK_RULES replaces the rule state wholesale — the result
never depends on the previous rules — and a message carrying only a files
map resets the allow list to [], the protocols to ["http","https"], the
methods to all seven, and clears maxContentLength and proxyUrl. -/
theorem c9_wholesale_replacement :
    (∀ p1 p2 msg : NetworkRules,
        applySetNetworkRules p1 msg = applySetNetworkRules p2 msg) ∧
    (∀ (prev : NetworkRules) (fs : List (String × String)),
        applySetNetworkRules prev { emptyRulesMsg with files := some fs } =
          { allow := some []
            allowProtocols := some defaultAllowProtocols
            allowMethods := some defaultAllowMethods
            maxContentLength := none
            proxyUrl := none
            files := some fs
            cacheStrategy := some ("network-first") }) :=
  ⟨fun _ _ _ => rfl, fun _ _ => rfl⟩

/-- C10: the inner frame handler executes the code of every message whose
data is an EXECUTE, reading neither origin nor source: two events with the
same data are handled identically, whoever sent them. -/
theorem c10_sender_independent :
    (∀ e1 e2 : InnerEvent, e1.data = e2.data → innerHandle e1 = innerHandle e2) ∧
    (∀ (origin : String) (src : WinSource) (code : String),
        innerHandle { origin := origin, source := src,
                      data := WinData.executeMsg code } = some code) := by
  constructor
  · intro e1 e2 hdata
    unfold innerHandle
    rw [hdata]
  · intro origin src code
    rfl

/-- C10 witness: the same EXECUTE payload from an unknown window at a
hostile origin and from the parent at the host origin is handled
identically, and the code is evaluated. -/
theorem c10_witness :
    innerHandle { origin := "https://evil.example", source := WinSource.otherWindow,
                  data := WinData.executeMsg ("x") } =
      innerHandle { origin := "http://localhost:3333", source := WinSource.parent,
                    data := WinData.executeMsg ("x") } ∧
    innerHandle { origin := "https://evil.example", source := WinSource.otherWindow,
                  data := WinData.executeMsg ("x") } = some ("x") :=
  ⟨c10_sender_independent.1
      { origin := "https://evil.example", source := WinSource.otherWindow,
        data := WinData.executeMsg ("x") }
      { origin := "http://localhost:3333", source := WinSource.parent,
        data := WinData.executeMsg ("x") } rfl,
   c10_sender_independent.2 ("https://evil.example") WinSource.otherWindow ("x")⟩

end IframeSandbox
